import Mathlib

/-!
Shallow embedding of the orchestration-relevant parts of the
Upstage_team3_deep_research repository, together with proofs that settle
the frozen specification claims against the code.

Embedded source files:
- evaluation/eval_tools.py          (URLScraper.fetch_one / fetch_many)
- evaluation/impact_evidence_faithfulness.py  (evaluate_impact_node)
- evaluation/policy_attribution_consistency.py (evaluate_policy_attribution_node)
- evaluation/eval_graph.py          (_aggregate_impact / _aggregate_attribution)
- src/deep_research/utils.py        (deduplicate_search_results,
                                     summarize_webpage_content)

External collaborators (the structured LLM judge, the browser backend, the
summarization model) are parameters: each embedded function takes the
collaborator as an explicit function argument, exactly at the call boundary
where the Python code awaits it.
-/

set_option autoImplicit false

namespace DeepResearch

/-! ## Data model shared by the evaluation pipeline -/

/-- Label enumeration of impact_evidence_faithfulness.py (`LabelType`). -/
inductive ImpactLabel where
  | SUPPORTED
  | PARTIALLY_SUPPORTED
  | UNSUPPORTED
  | CONTRADICTED
  | NOT_ENOUGH_INFO
deriving DecidableEq

/-- Label enumeration of policy_attribution_consistency.py (`RelationLabel`). -/
inductive RelationLabel where
  | HIGHLY_RELATED
  | WEAKLY_RELATED
  | UNRELATED
  | NOT_ENOUGH_INFO
deriving DecidableEq

/-- Error enumeration shared by both metric files (`ErrorType`). -/
inductive ErrorType where
  | NONE
  | PAGE_LOAD_ERROR
  | LOGIN_REQUIRED
  | REDIRECTED_TO_HOME
  | TOO_SHORT
  | OTHER
deriving DecidableEq

/-- One element of `state["evidence"]` (`EvidenceItem` TypedDict):
`\x7b "source_title": str, "url": str \x7d`. -/
structure EvidenceItem where
  source_title : String
  url : String
deriving DecidableEq

/-- The dict returned by `URLScraper.fetch_one` and stored in
`state["scraped_pages"]`.  Scores and statuses are exact: HTTP statuses are
integers, body text is a character string. -/
structure ScrapedPage where
  url : String
  ok : Bool
  status : Option Int
  final_url : Option String
  title : Option String
  text : String
  error : Option String
deriving DecidableEq

/-- Structured judge output for one page (`ImpactEvidenceResult`).
`score` is a float in [0,1] in the source; it is embedded as an exact
rational. -/
structure ImpactEvidenceResult where
  label : ImpactLabel
  score : ℚ
  reasoning : String
  evidence_spans : List String
  error_type : ErrorType
deriving DecidableEq

/-- Per-URL record built by `_evaluate_single_url` in
impact_evidence_faithfulness.py (`PerURLImpactEval`). -/
structure PerURLImpactEval where
  url : String
  source_title : Option String
  http_status : Option Int
  ok : Bool
  label : ImpactLabel
  score : ℚ
  reasoning : String
  evidence_spans : List String
  error_type : ErrorType
deriving DecidableEq

/-- Structured judge output for one page (`PolicyAttributionResult`). -/
structure PolicyAttributionResult where
  label : RelationLabel
  score : ℚ
  reasoning : String
  evidence_spans : List String
  error_type : ErrorType
  politician_mentioned : Bool
  policy_topic_mentioned : Bool
deriving DecidableEq

/-- Per-URL record built by `_evaluate_single_url` in
policy_attribution_consistency.py (`PerURLPolicyAttributionEval`). -/
structure PerURLPolicyAttributionEval where
  url : String
  source_title : Option String
  http_status : Option Int
  ok : Bool
  label : RelationLabel
  score : ℚ
  reasoning : String
  evidence_spans : List String
  error_type : ErrorType
  politician_mentioned : Bool
  policy_topic_mentioned : Bool
deriving DecidableEq

/-- Python truthiness fallback `a or b` for strings: the empty string is
falsy, so `a or b` is `b` when `a` is empty and `a` otherwise. -/
def pyOr (a b : String) : String :=
  if a = "" then b else a

/-! ## Deduplicating Aggregator (utils.py, `deduplicate_search_results`) -/

/-- One entry of a Tavily `response["results"]` list: the fields the
deduplication and processing code reads (`url`, `title`, `content`). -/
structure SearchResult where
  url : String
  title : String
  content : String
deriving DecidableEq

/-- One Tavily response: a dict with a `results` list. -/
structure SearchResponse where
  results : List SearchResult
deriving DecidableEq

/-- The body of the inner loop of `deduplicate_search_results`:
`if url not in unique_results: unique_results[url] = result`.
A Python dict preserves insertion order, so it is embedded as an
association list to which new keys are appended at the end. -/
def dedupStep (acc : List (String × SearchResult)) (r : SearchResult) :
    List (String × SearchResult) :=
  if (acc.lookup r.url).isSome then acc else acc ++ [(r.url, r)]

/-- utils.py `deduplicate_search_results`: iterate over every response and
every result inside it, keeping the first result seen for each URL. -/
def deduplicate_search_results (search_results : List SearchResponse) :
    List (String × SearchResult) :=
  search_results.foldl (fun acc response => response.results.foldl dedupStep acc) []

/-! ## Aggregation (eval_graph.py) -/

/-- One update of the Python `defaultdict(int)` counter
`label_counts[r.label] += 1`, on an insertion-ordered association list. -/
def bumpCount {α : Type} [DecidableEq α] :
    List (α × Nat) → α → List (α × Nat)
  | [], l => [(l, 1)]
  | (k, n) :: rest, l =>
      if k = l then (k, n + 1) :: rest else (k, n) :: bumpCount rest l

/-- The label-count dict built by the `for r in impact_results` loop of
`_aggregate_impact`. -/
def impactLabelCounts (rs : List PerURLImpactEval) : List (ImpactLabel × Nat) :=
  rs.foldl (fun acc r => bumpCount acc r.label) []

/-- Return shape of `_aggregate_impact`. -/
structure ImpactAggregate where
  avg_score : Option ℚ
  label_counts : List (ImpactLabel × Nat)
deriving DecidableEq

/-- eval_graph.py `_aggregate_impact`: `None`/empty on no results, else the
mean score and per-label counts. -/
def aggregate_impact (impact_results : List PerURLImpactEval) : ImpactAggregate :=
  if impact_results = [] then
    { avg_score := none, label_counts := [] }
  else
    let scores := impact_results.map (fun r => r.score)
    let avg_score : Option ℚ :=
      if scores = [] then none else some (scores.sum / (scores.length : ℚ))
    { avg_score := avg_score, label_counts := impactLabelCounts impact_results }

/-- Return shape of `_aggregate_attribution`. -/
structure AttributionAggregate where
  avg_score : Option ℚ
  label_counts : List (RelationLabel × Nat)
  politician_mentioned_ratio : Option ℚ
  policy_topic_mentioned_ratio : Option ℚ
deriving DecidableEq

/-- The label-count dict built by the loop of `_aggregate_attribution`. -/
def attributionLabelCounts (rs : List PerURLPolicyAttributionEval) :
    List (RelationLabel × Nat) :=
  rs.foldl (fun acc r => bumpCount acc r.label) []

/-- eval_graph.py `_aggregate_attribution`. -/
def aggregate_attribution (attribution_results : List PerURLPolicyAttributionEval) :
    AttributionAggregate :=
  if attribution_results = [] then
    { avg_score := none
      label_counts := []
      politician_mentioned_ratio := none
      policy_topic_mentioned_ratio := none }
  else
    let scores := attribution_results.map (fun r => r.score)
    let avg_score : Option ℚ :=
      if scores = [] then none else some (scores.sum / (scores.length : ℚ))
    let politician_mentioned :=
      (attribution_results.filter (fun r => r.politician_mentioned)).length
    let policy_topic_mentioned :=
      (attribution_results.filter (fun r => r.policy_topic_mentioned)).length
    let total := attribution_results.length
    { avg_score := avg_score
      label_counts := attributionLabelCounts attribution_results
      politician_mentioned_ratio :=
        if total ≠ 0 then some ((politician_mentioned : ℚ) / (total : ℚ)) else none
      policy_topic_mentioned_ratio :=
        if total ≠ 0 then some ((policy_topic_mentioned : ℚ) / (total : ℚ)) else none }

/-! ## Fetcher (eval_tools.py, `URLScraper.fetch_one` / `fetch_many`) -/

/-- What the browser interaction inside the outer `try` block of
`fetch_one` produced.  `response` is the return of `page.goto` when a
response object was obtained (its HTTP `status` and final `url`), even if a
later awaited step raised; `failure` is the message of an exception raised
anywhere inside the outer `try` before title/text extraction (launch,
`goto`, `wait_for_timeout`), which jumps to the `except` arms leaving
title/text at their defaults. -/
structure NavAttempt where
  response : Option (Int × String)
  failure : Option String
deriving DecidableEq

/-- The `ok` computation of `fetch_one`:
`status is not None and 200 <= status < 400`. -/
def okOfStatus : Option Int → Bool
  | some s => decide (200 ≤ s ∧ s < 400)
  | none => false

/-- eval_tools.py `URLScraper.fetch_one`, with the browser interaction made
explicit: `nav` is the navigation attempt, `titleRes` the result of
`page.title()` (its own try/except maps an exception to `None`), `textRes`
the result of `page.evaluate` (its own try/except maps an exception to the
empty string), and `closeRes` the result of `context.close()` (an
exception there is caught by the outer `except`, after text was already
extracted and truncated).  Truncation caps the text at `maxChars`
characters. -/
def fetch_one (maxChars : Nat) (url : String) (nav : NavAttempt)
    (titleRes : Except String String) (textRes : Except String String)
    (closeRes : Except String Unit) : ScrapedPage :=
  let status : Option Int := nav.response.map (fun p => p.1)
  let final_url : Option String := nav.response.map (fun p => p.2)
  match nav.failure with
  | some e =>
      { url := url, ok := okOfStatus status, status := status
        final_url := final_url, title := none, text := "", error := some e }
  | none =>
      let title : Option String :=
        match titleRes with
        | .ok t => some t
        | .error _ => none
      let text0 : String :=
        match textRes with
        | .ok t => t
        | .error _ => ""
      let text := if maxChars < text0.length then text0.take maxChars else text0
      let error : Option String :=
        match closeRes with
        | .ok _ => none
        | .error e => some e
      { url := url, ok := okOfStatus status, status := status
        final_url := final_url, title := title, text := text, error := error }

/-- eval_tools.py `URLScraper.fetch_many`: each URL is fetched by its own
worker under a concurrency semaphore, and each worker appends its result to
the shared `results` list at the moment it completes.  The returned list
therefore holds one `fetch_one` result per URL arranged in worker
COMPLETION order, which under concurrency is an arbitrary permutation of
the input order.  `arrival` is that completion order: a permutation of the
input `urls` list. -/
def fetch_many (fetchOne : String → ScrapedPage) (arrival : List String) :
    List ScrapedPage :=
  arrival.map fetchOne

/-! ## Impact evidence faithfulness node
(impact_evidence_faithfulness.py) -/

/-- The dict passed to `impact_chain.ainvoke` by `_evaluate_single_url`. -/
structure ImpactJudgeInput where
  industry_or_sector : String
  companies : String
  impact_description : String
  source_title : String
  url : String
  source_text : String
  question : String
deriving DecidableEq

/-- The relevant keys of `ImpactEvidenceState` (a `total=False` TypedDict):
`evidence` and `scraped_pages` are read with `state.get(key, [])`, so a
missing key is the empty list; `question` is read with
`state.get("question", "") or ""`. -/
structure ImpactEvidenceState where
  industry_or_sector : String
  companies : List String
  impact_description : String
  question : Option String
  evidence : List EvidenceItem
  scraped_pages : List ScrapedPage
deriving DecidableEq

/-- impact_evidence_faithfulness.py `_evaluate_single_url`, with the
structured-LLM chain as an explicit collaborator function. -/
def evaluate_single_url_impact (chain : ImpactJudgeInput → ImpactEvidenceResult)
    (industry_or_sector : String) (companies : List String)
    (impact_description : String) (source_title : String) (url : String)
    (source_text : String) (question : String) (http_status : Option Int)
    (ok : Bool) : PerURLImpactEval :=
  let companies_str := if companies = [] then "" else String.intercalate ", " companies
  let result := chain
    { industry_or_sector := industry_or_sector
      companies := companies_str
      impact_description := impact_description
      source_title := source_title
      url := url
      source_text := source_text
      question := question }
  { url := url
    source_title := if source_title = "" then none else some source_title
    http_status := http_status
    ok := ok
    label := result.label
    score := result.score
    reasoning := result.reasoning
    evidence_spans := result.evidence_spans
    error_type := result.error_type }

/-- impact_evidence_faithfulness.py `evaluate_impact_node`: zips `evidence`
with `scraped_pages` POSITIONALLY (the source comments "Evidence and
scraped_pages are assumed to have the same order") and judges every pair;
`asyncio.gather` preserves task order, so the results list is in pair
order.  Returns the `impact_results` list written back into the state. -/
def evaluate_impact_node (chain : ImpactJudgeInput → ImpactEvidenceResult)
    (state : ImpactEvidenceState) : List PerURLImpactEval :=
  let question := pyOr ((state.question).getD "") ""
  (state.evidence.zip state.scraped_pages).map (fun p =>
    let ev := p.1
    let page := p.2
    let source_title := pyOr ev.source_title (pyOr (page.title.getD "") "")
    let source_text := pyOr page.text ""
    evaluate_single_url_impact chain state.industry_or_sector state.companies
      state.impact_description source_title ev.url source_text question
      page.status page.ok)

/-! ## Policy attribution consistency node
(policy_attribution_consistency.py) -/

/-- The dict passed to `policy_chain.ainvoke` by `_evaluate_single_url`. -/
structure PolicyJudgeInput where
  politician : String
  policy : String
  industry_or_sector : String
  companies : String
  source_title : String
  url : String
  source_text : String
  question : String
deriving DecidableEq

/-- The relevant keys of `PolicyAttributionState`. -/
structure PolicyAttributionState where
  politician : String
  policy : String
  industry_or_sector : String
  companies : List String
  question : Option String
  evidence : List EvidenceItem
  scraped_pages : List ScrapedPage
deriving DecidableEq

/-- policy_attribution_consistency.py `_evaluate_single_url`. -/
def evaluate_single_url_policy (chain : PolicyJudgeInput → PolicyAttributionResult)
    (politician policy industry_or_sector : String) (companies : List String)
    (source_title url source_text question : String) (http_status : Option Int)
    (ok : Bool) : PerURLPolicyAttributionEval :=
  let companies_str := if companies = [] then "" else String.intercalate ", " companies
  let result := chain
    { politician := politician
      policy := policy
      industry_or_sector := industry_or_sector
      companies := companies_str
      source_title := source_title
      url := url
      source_text := source_text
      question := question }
  { url := url
    source_title := if source_title = "" then none else some source_title
    http_status := http_status
    ok := ok
    label := result.label
    score := result.score
    reasoning := result.reasoning
    evidence_spans := result.evidence_spans
    error_type := result.error_type
    politician_mentioned := result.politician_mentioned
    policy_topic_mentioned := result.policy_topic_mentioned }

/-- policy_attribution_consistency.py `evaluate_policy_attribution_node`:
same positional zip of `evidence` with `scraped_pages`. -/
def evaluate_policy_attribution_node
    (chain : PolicyJudgeInput → PolicyAttributionResult)
    (state : PolicyAttributionState) : List PerURLPolicyAttributionEval :=
  let question := pyOr ((state.question).getD "") ""
  (state.evidence.zip state.scraped_pages).map (fun p =>
    let ev := p.1
    let page := p.2
    let source_title := pyOr ev.source_title (pyOr (page.title.getD "") "")
    let source_text := pyOr page.text ""
    evaluate_single_url_policy chain state.politician state.policy
      state.industry_or_sector state.companies source_title ev.url source_text
      question page.status page.ok)

/-! ## Webpage summarization (utils.py, `summarize_webpage_content`) -/

/-- The `Summary` structured-output model (state_research.py): a summary
plus key excerpts. -/
structure Summary where
  summary : String
  key_excerpts : String
deriving DecidableEq

/-- utils.py `summarize_webpage_content`, with the structured summarization
model as an explicit collaborator that either returns a `Summary` or fails
with an exception message.  The body truncates the content to 15000
characters, invokes the model, and on any exception falls back to the first
2000 characters of the RAW content followed by an ellipsis. -/
def summarize_webpage_content (invokeModel : String → Except String Summary)
    (webpage_content : String) : String :=
  let truncated := webpage_content.take 15000
  match invokeModel truncated with
  | .ok s =>
      "<summary>\n" ++ s.summary ++ "\n</summary>\n\n" ++
        "<key_excerpts>\n" ++ s.key_excerpts ++ "\n</key_excerpts>"
  | .error _ => webpage_content.take 2000 ++ "..."

/-! ## Budgeted Tool Loop (modelled from the spec)

The research agent's tool-calling loop itself is not under src/: only its
natural-language contract (prompts.py `research_agent_prompt`, the Hard
Limits tool-call budgets) and its helper tools are.  The loop mechanics are
therefore modelled from spec section 4.2. -/

/-- Modelled from the spec: the collaborator kinds a Budgeted Tool Loop can
select on one iteration (spec section 3 WorkItem `kind`); `reflect` is the
self-reflection step that does not count against the external-call
budget. -/
inductive ActionKind where
  | fetch
  | search
  | judge
  | reflect
deriving DecidableEq

/-- Modelled from the spec: one collaborator invocation record (spec
section 3 WorkItem), append-only. -/
structure WorkItem where
  kind : ActionKind
  input : String
  output : Option String
deriving DecidableEq

/-- Modelled from the spec: the call-count part of a Budget (spec section
3): strictly monotonic counter `calls_used` under ceiling `calls_max`. -/
structure Budget where
  calls_used : Nat
  calls_max : Nat
deriving DecidableEq

/-- Modelled from the spec: the mutable state of one Budgeted Tool Loop
run: its budget and its transcript of WorkItems. -/
structure LoopState where
  budget : Budget
  transcript : List WorkItem
deriving DecidableEq

/-- Number of external collaborator invocations recorded in a transcript
(every WorkItem whose kind is not `reflect`). -/
def externalCalls (ws : List WorkItem) : Nat :=
  (ws.filter (fun w => w.kind ≠ ActionKind.reflect)).length

/-- Modelled from the spec (section 4.2): executing one selected action of
the Budgeted Tool Loop.  The action is executed by the collaborator
`execute` and recorded as a WorkItem appended to the transcript; an
external action (fetch/search/judge) consumes one unit of budget, while
the self-reflection step consumes none. -/
def loopIterate (execute : ActionKind → String → Option String)
    (s : LoopState) (a : ActionKind) (input : String) : LoopState :=
  let item : WorkItem := { kind := a, input := input, output := execute a input }
  if a = ActionKind.reflect then
    { s with transcript := s.transcript ++ [item] }
  else
    { budget := { calls_used := s.budget.calls_used + 1
                  calls_max := s.budget.calls_max }
      transcript := s.transcript ++ [item] }

/-- Modelled from the spec (section 4.2): one run of the Budgeted Tool
Loop, whose implementation is missing from src/ (only its prompt contract
is present).  Each iteration first evaluates the stopping predicates —
goal satisfied, or budget exhausted (`calls_used ≥ calls_max`) — and
stops without issuing anything if either holds; otherwise the pluggable
`policy` picks at most one action (`none` stops) and `loopIterate`
executes it.  `fuel` bounds the number of iterations (reflection alone
does not consume budget, so termination of the model is by fuel). -/
def runBudgetedLoop (policy : LoopState → Option (ActionKind × String))
    (execute : ActionKind → String → Option String)
    (goalSatisfied : LoopState → Bool) : Nat → LoopState → LoopState
  | 0, s => s
  | fuel + 1, s =>
      if goalSatisfied s = true ∨ s.budget.calls_max ≤ s.budget.calls_used then s
      else
        match policy s with
        | none => s
        | some (a, input) =>
            runBudgetedLoop policy execute goalSatisfied fuel
              (loopIterate execute s a input)

/-- A fresh loop state with an empty transcript and a budget of `n`
collaborator calls, none used yet. -/
def initLoopState (n : Nat) : LoopState :=
  { budget := { calls_used := 0, calls_max := n }, transcript := [] }

/-! ## Synthesis stage (modelled from the spec)

The synthesis step that maps condensed findings onto the Report shape is
performed outside src/ (only prompts.py `final_report_generation_prompt`
and `research_agent_prompt` declare its contract), so it is modelled from
spec section 4.5. -/

/-- Modelled from the spec: a judged or summarized unit of evidence (spec
section 3 Finding), extended with the explicit literal answer the finding
contains for the factual sub-question, when it contains one. -/
structure Finding where
  locator : String
  summaryText : String
  literal_answer : Option String
deriving DecidableEq

/-- One influence-chain record of the Report interchange shape. -/
structure InfluenceChain where
  politician : String
  policy : String
  industry_or_sector : String
  companies : List String
  impact_description : String
  evidence : List EvidenceItem
deriving DecidableEq

/-- The Report interchange shape (spec section 6 / prompts.py REQUIRED
JSON OUTPUT SCHEMA). -/
structure Report where
  report_title : String
  time_range : String
  question_answer : String
  influence_chains : List InfluenceChain
  notes : String
deriving DecidableEq

/-- The explicit could-not-be-confirmed marker the synthesis stage emits
when no finding answers the factual sub-question (spec sections 4.5 and
7: an explicit unknown value, never a fabricated one). -/
def could_not_confirm_marker : String :=
  "UNKNOWN: the requested fact could not be confirmed from the collected findings"

/-- Modelled from the spec (section 4.5 `synthesize`), missing from src/:
maps condensed findings onto the Report shape; `question_answer` is the
first explicit literal answer found among the findings, and when no
finding contains one it is the explicit could-not-confirm marker, never a
fabricated literal. -/
def synthesize (research_brief : String) (chains : List InfluenceChain)
    (findings : List Finding) : Report :=
  let answer :=
    match findings.findSome? (fun f => f.literal_answer) with
    | some a => a
    | none => could_not_confirm_marker
  { report_title := research_brief
    time_range := ""
    question_answer := answer
    influence_chains := chains
    notes :=
      match findings.findSome? (fun f => f.literal_answer) with
      | some _ => ""
      | none => "the factual sub-question could not be answered from the findings" }

/-! ## Concrete scenario inputs used by the counterexamples and witnesses -/

/-- A judge collaborator returning a constant verdict; used to evaluate
the pipeline on concrete inputs. -/
def constImpactJudge : ImpactJudgeInput → ImpactEvidenceResult :=
  fun _ =>
    { label := ImpactLabel.NOT_ENOUGH_INFO, score := 0, reasoning := "const"
      evidence_spans := [], error_type := ErrorType.NONE }

/-- A judge collaborator that copies the `source_text` it was given into
its `reasoning` field, making visible which fetched page each verdict was
computed from. -/
def echoJudge : ImpactJudgeInput → ImpactEvidenceResult :=
  fun inp =>
    { label := ImpactLabel.SUPPORTED, score := 1, reasoning := inp.source_text
      evidence_spans := [], error_type := ErrorType.NONE }

/-- A deterministic browser backend: every URL loads with status 200 and a
body text naming the URL. -/
def demoFetch (u : String) : ScrapedPage :=
  { url := u, ok := true, status := some 200, final_url := some u
    title := some u, text := "text of " ++ u, error := none }

/-- Evidence list of the spec's 404 scenario: three locators. -/
def scenarioEvidence : List EvidenceItem :=
  [ { source_title := "Source One", url := "https://ex.org/1" }
  , { source_title := "Source Two", url := "https://ex.org/2" }
  , { source_title := "Source Three", url := "https://ex.org/3" } ]

/-- Scraped pages of the 404 scenario, produced by the embedded
`fetch_one`: locators 1 and 3 load with status 200, locator 2 returns
status 404 (so `ok = false`). -/
def scenarioPages : List ScrapedPage :=
  [ fetch_one 50000 "https://ex.org/1"
      { response := some (200, "https://ex.org/1"), failure := none }
      (Except.ok "T1") (Except.ok "body one") (Except.ok ())
  , fetch_one 50000 "https://ex.org/2"
      { response := some (404, "https://ex.org/2"), failure := none }
      (Except.ok "Not Found") (Except.ok "") (Except.ok ())
  , fetch_one 50000 "https://ex.org/3"
      { response := some (200, "https://ex.org/3"), failure := none }
      (Except.ok "T3") (Except.ok "body three") (Except.ok ()) ]

/-- Evaluation state of the 404 scenario. -/
def scenarioState : ImpactEvidenceState :=
  { industry_or_sector := "semiconductors", companies := ["AcmeCorp"]
    impact_description := "tariffs raised costs", question := some "q"
    evidence := scenarioEvidence, scraped_pages := scenarioPages }

/-- Evidence list with two locators, used to exhibit the arrival-order
pairing of fetched pages. -/
def orderEvidence : List EvidenceItem :=
  [ { source_title := "A", url := "https://ex.org/a" }
  , { source_title := "B", url := "https://ex.org/b" } ]

/-- The input URL list of the two-locator run, in evidence order. -/
def orderUrls : List String := ["https://ex.org/a", "https://ex.org/b"]

/-- A completion order of the concurrent fetches in which the fetch of
locator b finishes before the fetch of locator a. -/
def orderArrival : List String := ["https://ex.org/b", "https://ex.org/a"]

/-- Evaluation state whose `scraped_pages` come from `fetch_many` under
the swapped completion order. -/
def orderState : ImpactEvidenceState :=
  { industry_or_sector := "s", companies := [], impact_description := "d"
    question := none, evidence := orderEvidence
    scraped_pages := fetch_many demoFetch orderArrival }

/-- A summarization collaborator that always fails, standing for a raised
exception inside `with_structured_output(...).invoke`. -/
def failingSummarizer : String → Except String Summary :=
  fun _ => Except.error "rate limit exceeded"

/-- A finding with no explicit literal answer. -/
def inconclusiveFinding : Finding :=
  { locator := "https://ex.org/f", summaryText := "background only"
    literal_answer := none }

/-! ## Lemmas about the Deduplicating Aggregator -/

/-- Looking up a URL after folding `dedupStep` over a result list finds
whatever the accumulator already held for that URL, and otherwise the
FIRST result with that URL in the list. -/
theorem lookup_foldl_dedupStep (l : List SearchResult) :
    ∀ (acc : List (String × SearchResult)) (u : String),
    (l.foldl dedupStep acc).lookup u =
      (acc.lookup u).or (l.find? (fun r => r.url == u)) := by
  induction l with
  | nil =>
      intro acc u
      simp [List.find?]
  | cons r l ih =>
      intro acc u
      rw [List.foldl_cons, ih]
      by_cases hu : r.url = u
      · subst hu
        by_cases h : (acc.lookup r.url).isSome
        · obtain ⟨v, hv⟩ := Option.isSome_iff_exists.mp h
          rw [dedupStep, if_pos h, hv]
          rw [List.find?_cons_of_pos _ (by simp)]
          simp [Option.or]
        · rw [dedupStep, if_neg h, List.lookup_append]
          rw [Option.not_isSome_iff_eq_none] at h
          rw [h, List.find?_cons_of_pos _ (by simp)]
          simp [List.lookup, Option.or]
      · have hbeq : (r.url == u) = false := by simp [hu]
        by_cases h : (acc.lookup r.url).isSome
        · rw [dedupStep, if_pos h, List.find?_cons_of_neg _ (by simp [hbeq])]
        · rw [dedupStep, if_neg h, List.lookup_append,
            List.find?_cons_of_neg _ (by simp [hbeq])]
          have hnone : List.lookup u [(r.url, r)] = none := by
            have hb : (u == r.url) = false := by simp [Ne.symm hu]
            simp [List.lookup, hb]
          rw [hnone, Option.or_none]

/-- The nested loops of `deduplicate_search_results` process exactly the
concatenation of all inner result lists, in source order. -/
theorem foldl_dedup_eq_flatten (search_results : List SearchResponse) :
    ∀ acc : List (String × SearchResult),
    search_results.foldl (fun acc response => response.results.foldl dedupStep acc) acc =
      ((search_results.map SearchResponse.results).flatten).foldl dedupStep acc := by
  induction search_results with
  | nil => intro acc; simp
  | cons resp rest ih =>
      intro acc
      rw [List.foldl_cons, ih, List.map_cons, List.flatten_cons, List.foldl_append]

/-- Folding `dedupStep` over a list all of whose URLs are already present
in the accumulator changes nothing. -/
theorem foldl_dedupStep_absorbed (l : List SearchResult) :
    ∀ acc : List (String × SearchResult),
    (∀ r ∈ l, (acc.lookup r.url).isSome) → l.foldl dedupStep acc = acc := by
  induction l with
  | nil => intro acc _; rfl
  | cons r rest ih =>
      intro acc h
      rw [List.foldl_cons, dedupStep, if_pos (h r (by simp))]
      exact ih acc (fun x hx => h x (by simp [hx]))

/-- C3 — confirmed.  For every input list of search responses and every
URL, the map produced by `deduplicate_search_results` associates the URL
with the FIRST document carrying that URL in iteration order (responses in
source order, results within each response in source order); any later
duplicate — content included — is absent from the map.  In particular,
when two documents share a locator but differ in content, the first one
encountered is retained and the later one is discarded entirely. -/
theorem dedup_first_seen_wins (search_results : List SearchResponse) (u : String) :
    (deduplicate_search_results search_results).lookup u =
      ((search_results.map SearchResponse.results).flatten).find?
        (fun r => r.url == u) := by
  rw [deduplicate_search_results, foldl_dedup_eq_flatten, lookup_foldl_dedupStep]
  simp [List.lookup]

/-- C7 — confirmed.  Running the Deduplicating Aggregator over the same
input list twice (processing the whole deterministic source order a second
time) yields exactly the same locator-to-document map as running it once:
the merge is idempotent and nothing is double-counted. -/
theorem dedup_idempotent (search_results : List SearchResponse) :
    deduplicate_search_results (search_results ++ search_results) =
      deduplicate_search_results search_results := by
  rw [deduplicate_search_results, deduplicate_search_results,
    foldl_dedup_eq_flatten, foldl_dedup_eq_flatten,
    List.map_append, List.flatten_append, List.foldl_append]
  apply foldl_dedupStep_absorbed
  intro r hr
  rw [lookup_foldl_dedupStep]
  simp only [List.lookup, Option.none_or]
  rw [List.find?_isSome]
  exact ⟨r, hr, by simp⟩

/-! ## Lemmas about the aggregation stage -/

/-- One `label_counts[label] += 1` update adds exactly one to the total of
the counts. -/
theorem sum_bumpCount {α : Type} [DecidableEq α] (c : List (α × Nat)) (l : α) :
    ((bumpCount c l).map Prod.snd).sum = ((c.map Prod.snd).sum) + 1 := by
  induction c with
  | nil => simp [bumpCount]
  | cons p rest ih =>
      obtain ⟨k, n⟩ := p
      by_cases h : k = l
      · simp [bumpCount, h]
        omega
      · simp [bumpCount, h, ih]
        omega

/-- Folding counter updates over a result list adds the list length to the
total of the counts. -/
theorem sum_foldl_bumpCount {α β : Type} [DecidableEq β] (key : α → β)
    (rs : List α) :
    ∀ acc : List (β × Nat),
    ((rs.foldl (fun acc r => bumpCount acc (key r)) acc).map Prod.snd).sum =
      ((acc.map Prod.snd).sum) + rs.length := by
  induction rs with
  | nil => intro acc; simp
  | cons r rest ih =>
      intro acc
      rw [List.foldl_cons, ih, sum_bumpCount]
      simp
      omega

/-- The values of the impact label-count dict total the number of
verdicts. -/
theorem sum_impactLabelCounts (rs : List PerURLImpactEval) :
    ((impactLabelCounts rs).map Prod.snd).sum = rs.length := by
  have h := sum_foldl_bumpCount (fun r : PerURLImpactEval => r.label) rs []
  simpa [impactLabelCounts] using h

/-- On a nonempty result list `_aggregate_impact` returns the mean of all
scores (sum divided by the number of verdicts). -/
theorem aggregate_impact_avg (rs : List PerURLImpactEval) (h : rs ≠ []) :
    (aggregate_impact rs).avg_score =
      some ((rs.map (fun r => r.score)).sum / (rs.length : ℚ)) := by
  rw [aggregate_impact, if_neg h]
  simp [h]

/-- C6 — confirmed.  An evaluation pass that produced zero verdicts still
materializes its aggregate: `_aggregate_impact` and
`_aggregate_attribution` on an empty result list return `avg_score =
null` and an empty label-count map (and null mention ratios), taking the
early-return branch so that the mean is never computed by dividing by
zero. -/
theorem aggregate_empty_results_null_avg :
    aggregate_impact [] = { avg_score := none, label_counts := [] } ∧
    aggregate_attribution [] =
      { avg_score := none, label_counts := []
        politician_mentioned_ratio := none
        policy_topic_mentioned_ratio := none } :=
  ⟨rfl, rfl⟩

/-- C1 — counterexample to the claim as stated.  In the spec's scenario —
three evidence locators of which exactly one fetch returns `ok = false`
with status 404 — the aggregate's `label_counts` values total 3, not 2:
the failed fetch is judged like any other page and is NOT excluded from
the aggregate. -/
theorem impact_404_label_counts_sum_ne_two :
    (((aggregate_impact (evaluate_impact_node constImpactJudge
        scenarioState)).label_counts.map Prod.snd).sum = 3) ∧
    ¬ (((aggregate_impact (evaluate_impact_node constImpactJudge
        scenarioState)).label_counts.map Prod.snd).sum = 2) := by
  constructor
  · rfl
  · intro h
    exact absurd h (by decide)

/-- C1 — amended claim, proved.  For the 404 scenario and EVERY judge
collaborator, `evaluate_impact_node` produces one verdict per evidence
item — the pair whose fetch failed (`ok = false`, status 404) included —
and the aggregate's `avg_score` is the mean over all three verdicts while
its `label_counts` values total 3. -/
theorem impact_404_aggregate_over_all_verdicts
    (judge : ImpactJudgeInput → ImpactEvidenceResult) :
    (((aggregate_impact (evaluate_impact_node judge
        scenarioState)).label_counts.map Prod.snd).sum = 3) ∧
    (aggregate_impact (evaluate_impact_node judge scenarioState)).avg_score =
      some (((evaluate_impact_node judge scenarioState).map
        (fun r => r.score)).sum / 3) ∧
    ∃ r ∈ evaluate_impact_node judge scenarioState,
      r.ok = false ∧ r.http_status = some 404 := by
  have hlen : (evaluate_impact_node judge scenarioState).length = 3 := rfl
  have hne : evaluate_impact_node judge scenarioState ≠ [] := by
    intro h
    rw [h] at hlen
    exact absurd hlen (by decide)
  refine ⟨?_, ?_, ?_⟩
  · rw [aggregate_impact, if_neg hne]
    exact (sum_impactLabelCounts _).trans hlen
  · rw [aggregate_impact_avg _ hne, hlen]
    norm_num
  · exact ⟨(evaluate_impact_node judge scenarioState).get ⟨1, by rw [hlen]; omega⟩,
      List.get_mem _ _ _, rfl, rfl⟩

/-- C9 — confirmed.  Whatever the relative lengths of the evidence list
and the scraped-page list, each evaluation node produces exactly
`min(len(evidence), len(scraped_pages))` verdicts: the positional `zip`
silently drops the surplus items of the longer list instead of reporting
them. -/
theorem eval_nodes_verdict_count_min
    (ichain : ImpactJudgeInput → ImpactEvidenceResult)
    (istate : ImpactEvidenceState)
    (pchain : PolicyJudgeInput → PolicyAttributionResult)
    (pstate : PolicyAttributionState) :
    (evaluate_impact_node ichain istate).length =
      min istate.evidence.length istate.scraped_pages.length ∧
    (evaluate_policy_attribution_node pchain pstate).length =
      min pstate.evidence.length pstate.scraped_pages.length := by
  constructor <;>
    simp [evaluate_impact_node, evaluate_policy_attribution_node,
      List.length_zip]

/-! ## Fetcher contract and arrival-order pairing -/

/-- The `ok` field computed by `fetch_one` is true exactly when a response
status was obtained and lies in [200, 400). -/
theorem okOfStatus_iff (st : Option Int) :
    okOfStatus st = true ↔ ∃ s : Int, st = some s ∧ 200 ≤ s ∧ s < 400 := by
  cases st with
  | none => simp [okOfStatus]
  | some s => simp [okOfStatus]

/-- C8 — confirmed.  For every fetch result: `ok` is true iff the HTTP
response status is a number in [200, 400) — in particular, when no
response status was obtained the `status` field is null (it mirrors the
navigation response exactly) and `ok` is false — and the body text never
exceeds the `maxChars` character ceiling, on every control path
(navigation failure, extraction failure, truncation, close failure). -/
theorem fetch_one_ok_iff_status_in_range (maxChars : Nat) (url : String)
    (nav : NavAttempt) (titleRes textRes : Except String String)
    (closeRes : Except String Unit) :
    ((fetch_one maxChars url nav titleRes textRes closeRes).ok = true ↔
      ∃ s : Int,
        (fetch_one maxChars url nav titleRes textRes closeRes).status = some s ∧
        200 ≤ s ∧ s < 400) ∧
    (fetch_one maxChars url nav titleRes textRes closeRes).status =
      nav.response.map (fun p => p.1) ∧
    (fetch_one maxChars url nav titleRes textRes closeRes).text.length ≤
      maxChars := by
  have htake : ∀ (s : String) (n : Nat), (s.take n).length ≤ n := by
    intro s n
    rw [String.length, String.data_take]
    exact (List.length_take n s.data).le.trans (Nat.min_le_left _ _)
  cases hf : nav.failure with
  | some e =>
      refine ⟨?_, ?_, ?_⟩
      · rw [show (fetch_one maxChars url nav titleRes textRes closeRes).ok =
            okOfStatus (nav.response.map (fun p => p.1)) by simp [fetch_one, hf]]
        rw [show (fetch_one maxChars url nav titleRes textRes closeRes).status =
            nav.response.map (fun p => p.1) by simp [fetch_one, hf]]
        exact okOfStatus_iff _
      · simp [fetch_one, hf]
      · simp [fetch_one, hf]
  | none =>
      refine ⟨?_, ?_, ?_⟩
      · rw [show (fetch_one maxChars url nav titleRes textRes closeRes).ok =
            okOfStatus (nav.response.map (fun p => p.1)) by simp [fetch_one, hf]]
        rw [show (fetch_one maxChars url nav titleRes textRes closeRes).status =
            nav.response.map (fun p => p.1) by simp [fetch_one, hf]]
        exact okOfStatus_iff _
      · simp [fetch_one, hf]
      · cases textRes with
        | error e => simp [fetch_one, hf]
        | ok t =>
            by_cases hlen : maxChars < t.length
            · simpa [fetch_one, hf, hlen] using htake t maxChars
            · simpa [fetch_one, hf, hlen] using Nat.le_of_not_lt hlen

/-- C2 — the code pairs verdicts with pages by list position, and
`fetch_many` arranges pages in fetch-completion order, so a verdict can be
computed from the wrong page.  With two evidence locators a and b and a
legitimate concurrent run in which the fetch of b completes first
(`orderArrival` is a permutation of the input `orderUrls`), the verdict
record carrying locator a is computed from the body text of the page
fetched for locator b, and vice versa, even though the two pages have
different texts. -/
theorem fetch_arrival_order_judges_wrong_page :
    List.Perm orderArrival orderUrls ∧
    orderUrls = orderEvidence.map EvidenceItem.url ∧
    (evaluate_impact_node echoJudge orderState).map
        (fun r => (r.url, r.reasoning)) =
      [("https://ex.org/a", "text of https://ex.org/b"),
       ("https://ex.org/b", "text of https://ex.org/a")] ∧
    (demoFetch "https://ex.org/a").text ≠ (demoFetch "https://ex.org/b").text := by
  refine ⟨by decide, rfl, rfl, by decide⟩

/-! ## Summarization fallback -/

/-- C10 — confirmed.  `summarize_webpage_content` never propagates a
summarization failure: whenever the structured summarization call on the
truncated content fails with any exception, the function returns the
first 2000 characters of the raw webpage content followed by an
ellipsis. -/
theorem summarize_fallback_on_exception
    (invokeModel : String → Except String Summary) (webpage_content : String)
    (e : String)
    (h : invokeModel (webpage_content.take 15000) = Except.error e) :
    summarize_webpage_content invokeModel webpage_content =
      webpage_content.take 2000 ++ "..." := by
  rw [summarize_webpage_content, h]

/-- Witness for C10: a summarizer that always fails makes the function
return the truncated raw content with an ellipsis. -/
theorem summarize_fallback_on_exception_witness :
    summarize_webpage_content failingSummarizer "example page body" =
      ("example page body".take 2000) ++ "..." :=
  summarize_fallback_on_exception failingSummarizer "example page body"
    "rate limit exceeded" rfl

/-! ## No-fabrication contract of the synthesis stage -/

/-- C5 — confirmed against the spec model.  When zero findings contain an
explicit literal answer to the factual sub-question, the emitted Report's
`question_answer` field is the explicit could-not-be-confirmed marker,
never a fabricated literal. -/
theorem synthesize_no_findings_unknown_marker (research_brief : String)
    (chains : List InfluenceChain) (findings : List Finding)
    (h : ∀ f ∈ findings, f.literal_answer = none) :
    (synthesize research_brief chains findings).question_answer =
      could_not_confirm_marker := by
  have hnone : findings.findSome? (fun f => f.literal_answer) = none :=
    List.findSome?_eq_none_iff.mpr h
  rw [synthesize]
  simp [hnone]

/-- Witness for C5: a run whose single finding holds no literal answer
reports the could-not-confirm marker. -/
theorem synthesize_no_findings_unknown_marker_witness :
    (synthesize "brief" [] [inconclusiveFinding]).question_answer =
      could_not_confirm_marker :=
  synthesize_no_findings_unknown_marker "brief" [] [inconclusiveFinding]
    (by
      intro f hf
      rw [List.mem_singleton] at hf
      rw [hf]
      rfl)

/-! ## Budget ceiling of the Budgeted Tool Loop -/

/-- Appending one WorkItem adds one to the external-call count unless it
records a self-reflection. -/
theorem externalCalls_append_one (ws : List WorkItem) (w : WorkItem) :
    externalCalls (ws ++ [w]) =
      externalCalls ws + (if w.kind = ActionKind.reflect then 0 else 1) := by
  rw [externalCalls, externalCalls, List.filter_append]
  by_cases h : w.kind = ActionKind.reflect <;> simp [List.filter, h]

/-- One loop iteration preserves the call ceiling, moves `calls_used` in
lockstep with the external-call count of the transcript, and raises
`calls_used` by at most one. -/
theorem loopIterate_budget (execute : ActionKind → String → Option String)
    (s : LoopState) (a : ActionKind) (input : String) :
    (loopIterate execute s a input).budget.calls_max = s.budget.calls_max ∧
    (loopIterate execute s a input).budget.calls_used ≤ s.budget.calls_used + 1 ∧
    externalCalls (loopIterate execute s a input).transcript +
        s.budget.calls_used =
      externalCalls s.transcript +
        (loopIterate execute s a input).budget.calls_used := by
  by_cases h : a = ActionKind.reflect <;>
    simp [loopIterate, h, externalCalls_append_one]
  omega

/-- Loop invariant: a run never raises `calls_used` above the ceiling it
started under, never changes the ceiling, and appends exactly one external
WorkItem per unit of budget it consumes. -/
theorem runBudgetedLoop_invariant (policy : LoopState → Option (ActionKind × String))
    (execute : ActionKind → String → Option String)
    (goalSatisfied : LoopState → Bool) :
    ∀ (fuel : Nat) (s : LoopState),
    (runBudgetedLoop policy execute goalSatisfied fuel s).budget.calls_max =
        s.budget.calls_max ∧
    (s.budget.calls_used ≤ s.budget.calls_max →
      (runBudgetedLoop policy execute goalSatisfied fuel s).budget.calls_used ≤
        s.budget.calls_max) ∧
    externalCalls (runBudgetedLoop policy execute goalSatisfied fuel s).transcript +
        s.budget.calls_used =
      externalCalls s.transcript +
        (runBudgetedLoop policy execute goalSatisfied fuel s).budget.calls_used := by
  intro fuel
  induction fuel with
  | zero => intro s; exact ⟨rfl, fun h => h, rfl⟩
  | succ n ih =>
      intro s
      rw [runBudgetedLoop]
      by_cases hstop : goalSatisfied s = true ∨
          s.budget.calls_max ≤ s.budget.calls_used
      · rw [if_pos hstop]
        exact ⟨rfl, fun h => h, rfl⟩
      · rw [if_neg hstop]
        cases hp : policy s with
        | none => exact ⟨rfl, fun h => h, rfl⟩
        | some p =>
            obtain ⟨a, input⟩ := p
            dsimp only
            have hlt : s.budget.calls_used < s.budget.calls_max := by
              rcases not_or.mp hstop with ⟨-, h2⟩
              omega
            obtain ⟨hmax, hle, hsync⟩ := loopIterate_budget execute s a input
            obtain ⟨ihmax, ihle, ihsync⟩ := ih (loopIterate execute s a input)
            refine ⟨ihmax.trans hmax, fun _ => ?_, ?_⟩
            · have := ihle (by omega)
              omega
            · omega

/-- C4 — confirmed against the spec model.  A Budgeted Tool Loop started
with `calls_max = N` records at most N external collaborator calls in its
transcript, no matter how many iterations its fuel and stopping predicates
would otherwise allow; and a loop whose budget is already exhausted
(`calls_used = calls_max`) is a fixed point: it issues no further
collaborator invocation whatever its intermediate state. -/
theorem budgeted_loop_at_most_max_calls
    (policy : LoopState → Option (ActionKind × String))
    (execute : ActionKind → String → Option String)
    (goalSatisfied : LoopState → Bool) (fuel N : Nat)
    (transcript : List WorkItem) :
    externalCalls ((runBudgetedLoop policy execute goalSatisfied fuel
        (initLoopState N)).transcript) ≤ N ∧
    runBudgetedLoop policy execute goalSatisfied fuel
        { budget := { calls_used := N, calls_max := N }
          transcript := transcript } =
      { budget := { calls_used := N, calls_max := N }
        transcript := transcript } := by
  constructor
  · obtain ⟨hmax, hle, hsync⟩ :=
      runBudgetedLoop_invariant policy execute goalSatisfied fuel (initLoopState N)
    have h0 : (initLoopState N).budget.calls_used = 0 := rfl
    have hN : (initLoopState N).budget.calls_max = N := rfl
    have htr : externalCalls (initLoopState N).transcript = 0 := rfl
    have := hle (by rw [h0, hN]; omega)
    omega
  · cases fuel with
    | zero => rfl
    | succ n =>
        rw [runBudgetedLoop, if_pos (Or.inr (le_refl N))]

end DeepResearch
